import Mathlib

/-!
Shallow embedding of the activity synchronization and matching subsystem of
the running-club backend (Python sources under src/), together with theorems
settling the specification claims about it.

Conventions of the embedding:
* UUIDs are modelled as `Nat`; Strava's numeric ids as `Int`.
* `datetime` values are modelled as `Int` seconds since the epoch (UTC);
  `datetime.date()` is floor division by 86400.  `date` values are the
  resulting `Int` day numbers.
* Python `float` fields are modelled as `ℚ`.
* Raised Python exceptions are modelled by `Except` with a `PyError` value;
  where relevant the error also carries the world state at raise time.
* The in-memory/DynamoDB stores are modelled as lists; `put_item` is an
  upsert keyed exactly as the corresponding repository keys its items.
-/

namespace RunningClub

/-- Python exceptions that the modelled code can raise:
`ValueError(msg)` raised explicitly by the use cases, `KeyError(key)` from a
missing dictionary key, `AttributeError(attr)` from reading an attribute a
class never defines, and the httpx error raised by `raise_for_status`. -/
inductive PyError where
  | valueError (msg : String)
  | keyError (key : String)
  | attributeError (attr : String)
  | httpStatusError
deriving DecidableEq, Repr

/-- `ActivityMatchStatus` from src/src/domain/entities/enums.py. -/
inductive ActivityMatchStatus where
  | matched
  | unmatched
  | ignored
deriving DecidableEq, Repr

/-- `StravaActivity` from src/src/domain/entities/strava_activity.py.
Field defaults mirror the constructor defaults (`or`-defaults included):
`heartrate_zones or {}`, `splits or []`, `laps or []`, `photos or []`,
`training_day_id = None`, `match_status = UNMATCHED`.  The auto-generated
`id or uuid4()` and `created_at or utcnow()` are supplied explicitly by the
callers in this embedding (a fresh-id counter and the current time). -/
structure StravaActivity where
  id : Nat
  customer_id : Nat
  strava_activity_id : Int
  name : String
  activity_type : String
  start_date : Int
  distance : ℚ
  moving_time : Int
  elapsed_time : Int
  total_elevation_gain : Option ℚ := none
  average_speed : Option ℚ := none
  max_speed : Option ℚ := none
  average_pace : Option ℚ := none
  average_heartrate : Option ℚ := none
  max_heartrate : Option ℚ := none
  heartrate_zones : List (String × ℚ) := []
  splits : List String := []
  laps : List String := []
  calories : Option ℚ := none
  suffer_score : Option ℚ := none
  kudos_count : Int := 0
  comment_count : Int := 0
  achievement_count : Int := 0
  photos : List String := []
  map_polyline : Option String := none
  training_day_id : Option Nat := none
  match_status : ActivityMatchStatus := ActivityMatchStatus.unmatched
  created_at : Int := 0
deriving DecidableEq, Repr

/-- `StravaActivity.match_to_training_day`: sets the pointer and MATCHED. -/
def StravaActivity.match_to_training_day (a : StravaActivity) (tid : Nat) :
    StravaActivity :=
  { a with training_day_id := some tid,
           match_status := ActivityMatchStatus.matched }

/-- `StravaActivity.unmatch`: clears the pointer and sets UNMATCHED. -/
def StravaActivity.unmatch (a : StravaActivity) : StravaActivity :=
  { a with training_day_id := none,
           match_status := ActivityMatchStatus.unmatched }

/-- `StravaActivity.ignore`: sets IGNORED.  Note: the source sets only
`match_status`; it does not touch `training_day_id`. -/
def StravaActivity.ignore (a : StravaActivity) : StravaActivity :=
  { a with match_status := ActivityMatchStatus.ignored }

/-- `StravaActivity.calculate_pace_min_per_km`: `moving_time` seconds to
minutes over `distance` meters to kilometers, guarded by
`distance > 0 and moving_time > 0`. -/
def StravaActivity.calculate_pace_min_per_km (a : StravaActivity) : Option ℚ :=
  if 0 < a.distance ∧ 0 < a.moving_time then
    some (((a.moving_time : ℚ) / 60) / (a.distance / 1000))
  else none

/-- The spec's match invariant: `match_status = MATCHED` iff the match
pointer is non-null (which also gives: UNMATCHED/IGNORED implies null). -/
def matchInvariant (a : StravaActivity) : Prop :=
  a.match_status = ActivityMatchStatus.matched ↔ a.training_day_id ≠ none

/-- `StravaConnection` from src/src/domain/entities/strava_connection.py. -/
structure StravaConnection where
  customer_id : Nat
  athlete_id : Int
  access_token : String
  refresh_token : String
  expires_at : Int
  scope : String
  connected_at : Int := 0
  last_sync_at : Option Int := none
deriving DecidableEq, Repr

/-- `StravaConnection.is_expired`: `utcnow() >= expires_at`. -/
def StravaConnection.is_expired (c : StravaConnection) (now : Int) : Bool :=
  decide (c.expires_at ≤ now)

/-- `StravaConnection.needs_refresh`: `expires_at <= utcnow() + buffer`.
The Python parameter `buffer_seconds` defaults to 3600; callers of the
default pass 3600 explicitly in this embedding. -/
def StravaConnection.needs_refresh (c : StravaConnection) (now : Int)
    (buffer_seconds : Int) : Bool :=
  decide (c.expires_at ≤ now + buffer_seconds)

/-- `StravaConnection.update_tokens`: replace both tokens and the expiry. -/
def StravaConnection.update_tokens (c : StravaConnection)
    (access_token refresh_token : String) (expires_at : Int) :
    StravaConnection :=
  { c with access_token := access_token, refresh_token := refresh_token,
           expires_at := expires_at }

/-- `Customer` from src/src/domain/entities/customer.py, restricted to the
fields the sync subsystem reads or writes. -/
structure Customer where
  id : Nat
  coach_id : Nat := 0
  strava_athlete_id : Option Int := none
  strava_connected_at : Option Int := none
  strava_last_sync : Option Int := none
deriving DecidableEq, Repr

/-- `Customer.is_strava_connected`: `strava_athlete_id is not None`. -/
def Customer.is_strava_connected (c : Customer) : Bool :=
  c.strava_athlete_id.isSome

/-- `Customer.update_last_sync`: set `strava_last_sync` to now. -/
def Customer.update_last_sync (c : Customer) (now : Int) : Customer :=
  { c with strava_last_sync := some now }

/-- `TrainingDay` from src/src/domain/entities/training_day.py, restricted
to the fields the matching engine reads.  The Python class defines the
fields listed here (plus workout description fields); it defines NO
attribute named `matched_activity_id`, and no code in the repository ever
assigns one. -/
structure TrainingDay where
  id : Nat
  training_plan_id : Nat
  date : Int
  day_order : Nat := 1
deriving DecidableEq, Repr

/-- Reading `day.matched_activity_id` in Python: the `TrainingDay` class
never defines or assigns this attribute, so the attribute lookup raises
`AttributeError`. -/
def TrainingDay.matchedActivityIdAttr (_day : TrainingDay) :
    Except PyError (Option Nat) :=
  Except.error (PyError.attributeError "matched_activity_id")

/-- `TrainingPlan`, restricted to the fields the matching engine reads. -/
structure TrainingPlan where
  id : Nat
  customer_id : Nat
deriving DecidableEq, Repr

/-- Response of `GET /webhooks/strava` (subscription verification) in
src/src/presentation/api/v1/webhooks.py: a 200 JSON body
with key "hub.challenge", or an HTTPException with status 400 or 403. -/
inductive WebhookVerifyResponse where
  | challengeEcho (hub_challenge : String)
  | badRequest (detail : String)
  | forbidden (detail : String)
deriving DecidableEq, Repr

/-- HTTP status code of each verification response. -/
def WebhookVerifyResponse.statusCode : WebhookVerifyResponse → Nat
  | WebhookVerifyResponse.challengeEcho _ => 200
  | WebhookVerifyResponse.badRequest _ => 400
  | WebhookVerifyResponse.forbidden _ => 403

/-- `verify_strava_webhook` from src/src/presentation/api/v1/webhooks.py.
`verify_token_setting` is `settings.strava_webhook_verify_token`. -/
def verify_strava_webhook (verify_token_setting hub_mode hub_verify_token
    hub_challenge : String) : WebhookVerifyResponse :=
  if hub_mode ≠ "subscribe" then
    WebhookVerifyResponse.badRequest "Invalid hub.mode"
  else if hub_verify_token ≠ verify_token_setting then
    WebhookVerifyResponse.forbidden "Invalid verify_token"
  else
    WebhookVerifyResponse.challengeEcho hub_challenge

/-! ## Upstream payloads and entity construction -/

/-- The `urls` dictionary of the primary photo; only the "600" key is read. -/
structure PrimaryPhoto where
  urls600 : Option String := none
deriving DecidableEq, Repr

/-- The `photos` dictionary of a Strava payload; only `primary` is read. -/
structure PhotosData where
  primary : Option PrimaryPhoto := none
deriving DecidableEq, Repr

/-- The `map` dictionary of a Strava payload; only `summary_polyline` is
read. -/
structure MapData where
  summary_polyline : Option String := none
deriving DecidableEq, Repr

/-- A raw Strava API activity payload (a JSON dictionary).  `none` in an
`Option` field models the key being absent (or, for `start_date`, absent or
unparsable — either way `_strava_data_to_entity` raises there, and the two
cases are otherwise indistinguishable to the callers, which catch all
exceptions alike). -/
structure StravaData where
  id : Option Int := none
  name : Option String := none
  type : Option String := none
  start_date : Option Int := none
  distance : Option ℚ := none
  moving_time : Option Int := none
  elapsed_time : Option Int := none
  total_elevation_gain : Option ℚ := none
  average_speed : Option ℚ := none
  max_speed : Option ℚ := none
  average_heartrate : Option ℚ := none
  max_heartrate : Option ℚ := none
  heartrate_zones : Option (List (String × ℚ)) := none
  splits_metric : Option (List String) := none
  laps : Option (List String) := none
  calories : Option ℚ := none
  suffer_score : Option ℚ := none
  kudos_count : Option Int := none
  comment_count : Option Int := none
  achievement_count : Option Int := none
  photos : Option PhotosData := none
  map : Option MapData := none
deriving DecidableEq, Repr

/-- `_extract_photo_urls`: keep only the primary photo's "600" URL; a
missing `photos` key maps to the empty dictionary first. -/
def extract_photo_urls : Option PhotosData → List String
  | none => []
  | some pd =>
    match pd.primary with
    | none => []
    | some pp =>
      match pp.urls600 with
      | none => []
      | some u => [u]

/-- The entity built by the `StravaActivity(...)` call inside
`_strava_data_to_entity`, once `data['id']` and `data['start_date']` have
been read successfully.  `fresh` stands for the `uuid4()` the constructor
generates and `now` for its `utcnow()`. -/
def buildActivity (data : StravaData) (customer_id : Nat) (now : Int)
    (fresh : Nat) (sid : Int) (sd : Int) : StravaActivity :=
  { id := fresh
    customer_id := customer_id
    strava_activity_id := sid
    name := data.name.getD "Untitled"
    activity_type := data.type.getD "Run"
    start_date := sd
    distance := data.distance.getD 0
    moving_time := data.moving_time.getD 0
    elapsed_time := data.elapsed_time.getD 0
    total_elevation_gain := data.total_elevation_gain
    average_speed := data.average_speed
    max_speed := data.max_speed
    average_pace := none
    average_heartrate := data.average_heartrate
    max_heartrate := data.max_heartrate
    heartrate_zones := data.heartrate_zones.getD []
    splits := data.splits_metric.getD []
    laps := data.laps.getD []
    calories := data.calories
    suffer_score := data.suffer_score
    kudos_count := data.kudos_count.getD 0
    comment_count := data.comment_count.getD 0
    achievement_count := data.achievement_count.getD 0
    photos := extract_photo_urls data.photos
    map_polyline :=
      match data.map with
      | none => none
      | some m => m.summary_polyline
    training_day_id := none
    match_status := ActivityMatchStatus.unmatched
    created_at := now }

/-- `_strava_data_to_entity` from
src/src/application/use_cases/activity_sync_use_case.py: the subscript
reads `data['id']` and `data['start_date']` raise if the key is missing;
every other field is read with `.get` and a default. -/
def strava_data_to_entity (data : StravaData) (customer_id : Nat)
    (now : Int) (fresh : Nat) : Except PyError StravaActivity :=
  match data.id with
  | none => Except.error (PyError.keyError "id")
  | some sid =>
    match data.start_date with
    | none => Except.error (PyError.keyError "start_date")
    | some sd => Except.ok (buildActivity data customer_id now fresh sid sd)

/-! ## Stores (repositories and the in-memory connection map) -/

/-- Two activities occupy the same DynamoDB item slot: the activities table
is keyed by `PK = CUSTOMER#customer_id`,
`SK = ACTIVITY#strava_activity_id#start_date`. -/
def activityKeyEq (a b : StravaActivity) : Bool :=
  a.customer_id == b.customer_id &&
  a.strava_activity_id == b.strava_activity_id &&
  a.start_date == b.start_date

/-- `put_item` on the activities table: overwrite the item with the same
key if present, otherwise add the item.  Both `create` and `update` of the
activity repository are this operation. -/
def putActivity (store : List StravaActivity) (a : StravaActivity) :
    List StravaActivity :=
  if store.any (activityKeyEq a) then
    store.map (fun b => if activityKeyEq a b then a else b)
  else store ++ [a]

/-- `get_by_strava_id`: the first stored activity of the customer with the
given Strava id. -/
def getByStravaId (store : List StravaActivity) (sid : Int) (cid : Nat) :
    Option StravaActivity :=
  store.find? (fun a => a.customer_id == cid && a.strava_activity_id == sid)

/-- Whether the dedup key (external id, customer id) is already stored. -/
def keyInStore (store : List StravaActivity) (sid : Int) (cid : Nat) : Bool :=
  (getByStravaId store sid cid).isSome

/-- `store_connection`: the client's in-memory dict keyed by customer id. -/
def storeConnection (conns : List StravaConnection) (c : StravaConnection) :
    List StravaConnection :=
  if conns.any (fun x => x.customer_id == c.customer_id) then
    conns.map (fun x => if x.customer_id == c.customer_id then c else x)
  else conns ++ [c]

/-- Customer repository `update`: overwrite the record with the same id. -/
def updateCustomerList (cs : List Customer) (c : Customer) : List Customer :=
  if cs.any (fun x => x.id == c.id) then
    cs.map (fun x => if x.id == c.id then c else x)
  else cs ++ [c]

/-- Token data returned by a successful `refresh_token` call upstream. -/
structure TokenData where
  access_token : String
  refresh_token : String
  expires_at : Int
deriving DecidableEq, Repr

/-- The world state a sync invocation runs against: the persisted stores,
the fresh-uuid supply, the collaborators' data (training plans and their
days as the lookup returns them) and the upstream's deterministic
responses (activity list, per-id details, refresh results). -/
structure SyncWorld where
  now : Int
  customers : List Customer
  connections : List StravaConnection
  activities : List StravaActivity
  freshId : Nat
  plans : List TrainingPlan
  planDays : List (Nat × List TrainingDay)
  fetched : List StravaData
  details : List (Int × StravaData)
  refreshResults : List (String × TokenData)
deriving DecidableEq, Repr

/-- `get_training_days(plan_id)`: the days of one plan, in the order the
lookup returns them. -/
def getTrainingDays (w : SyncWorld) (pid : Nat) : List TrainingDay :=
  match w.planDays.find? (fun e => e.1 == pid) with
  | none => []
  | some e => e.2

/-- Upstream `refresh_token`: a successful response for a given refresh
token, or `none` when the call fails (raise_for_status). -/
def lookupRefresh (tbl : List (String × TokenData)) (tok : String) :
    Option TokenData :=
  (tbl.find? (fun e => e.1 == tok)).map (fun e => e.2)

/-- Upstream `get_activity_detail`: the detail payload for an activity id,
or `none` when the call fails. -/
def getActivityDetail (w : SyncWorld) (sid : Int) : Option StravaData :=
  (w.details.find? (fun e => e.1 == sid)).map (fun e => e.2)

/-! ## Matching engine
(`_match_single_activity` and `match_activities_to_training_days`) -/

/-- `activity.start_date.date()`: the UTC calendar day of a timestamp. -/
def dateOf (t : Int) : Int := Int.fdiv t 86400

/-- The inner `for day in training_days` loop of `_match_single_activity`.
The loop condition is
`day.date == activity_date and not day.matched_activity_id`; Python's `and`
short-circuits, so the attribute is only read when the dates are equal —
and reading it raises, since `TrainingDay` defines no such attribute (see
`TrainingDay.matchedActivityIdAttr`). -/
def findMatchDay (adate : Int) : List TrainingDay →
    Except PyError (Option TrainingDay)
  | [] => Except.ok none
  | day :: rest =>
    if day.date = adate then
      match day.matchedActivityIdAttr with
      | Except.error e => Except.error e
      | Except.ok ptr =>
        if ptr.isNone then Except.ok (some day) else findMatchDay adate rest
    else findMatchDay adate rest

/-- The outer `for plan in plans` loop of `_match_single_activity`. -/
def findMatchDayInPlans (w : SyncWorld) (adate : Int) : List TrainingPlan →
    Except PyError (Option TrainingDay)
  | [] => Except.ok none
  | plan :: rest =>
    match findMatchDay adate (getTrainingDays w plan.id) with
    | Except.error e => Except.error e
    | Except.ok (some day) => Except.ok (some day)
    | Except.ok none => findMatchDayInPlans w adate rest

/-- `_match_single_activity`: search the customer's plans for the first
training day with the activity's date and a null pointer; on a hit, mark
the activity matched and persist it.  On success the updated activity (the
Python code mutates the entity in place) is returned alongside the world;
an uncaught exception carries the world unchanged (the search writes
nothing before raising). -/
def match_single_activity (w : SyncWorld) (a : StravaActivity) :
    Except (PyError × SyncWorld) (SyncWorld × Option StravaActivity) :=
  let adate := dateOf a.start_date
  let plans := w.plans.filter (fun p => p.customer_id == a.customer_id)
  match findMatchDayInPlans w adate plans with
  | Except.error e => Except.error (e, w)
  | Except.ok none => Except.ok (w, none)
  | Except.ok (some day) =>
    let a' := a.match_to_training_day day.id
    Except.ok ({ w with activities := putActivity w.activities a' }, some a')

/-- The `for activity in unmatched` loop of
`match_activities_to_training_days`: count the successful matches;
exceptions propagate. -/
def matchLoop : SyncWorld → List StravaActivity →
    Except (PyError × SyncWorld) (SyncWorld × Nat)
  | w, [] => Except.ok (w, 0)
  | w, a :: rest =>
    match match_single_activity w a with
    | Except.error e => Except.error e
    | Except.ok (w', res) =>
      match matchLoop w' rest with
      | Except.error e => Except.error e
      | Except.ok (w'', n) =>
        Except.ok (w'', n + (if res.isSome then 1 else 0))

/-- `match_activities_to_training_days`: sweep every currently UNMATCHED
activity of the customer (the repository's `get_unmatched_activities`
filters on `match_status == UNMATCHED`). -/
def match_activities_to_training_days (w : SyncWorld) (cid : Nat) :
    Except (PyError × SyncWorld) (SyncWorld × Nat) :=
  matchLoop w (w.activities.filter (fun a =>
    a.customer_id == cid &&
    a.match_status == ActivityMatchStatus.unmatched))

/-! ## Activity Sync Engine (`sync_activities`, `sync_single_activity`) -/

/-- Outcome of one iteration of the `for strava_activity in
strava_activities` loop: the dedup `continue`, a created entity, or a
caught per-item exception. -/
inductive StepOutcome where
  | skip
  | created (a : StravaActivity)
  | errored
deriving DecidableEq, Repr

/-- One iteration of the batch loop: read `strava_activity['id']` (raises
if absent), skip when `get_by_strava_id` finds an existing record, else map
the payload to an entity (which may raise) for persistence.  All raises are
caught by the loop's `except` and become `errored`. -/
def batchStep (cid : Nat) (now : Int) (d : StravaData)
    (store : List StravaActivity) (fresh : Nat) : StepOutcome :=
  match d.id with
  | none => StepOutcome.errored
  | some sid =>
    if keyInStore store sid cid then StepOutcome.skip
    else
      match strava_data_to_entity d cid now fresh with
      | Except.error _ => StepOutcome.errored
      | Except.ok a => StepOutcome.created a

/-- State after the batch loop: the activity store, the fresh-uuid supply,
`synced_count`, `error_count`, and the list of newly created activities
(whose DTOs `sync_activities` returns). -/
structure BatchResult where
  store : List StravaActivity
  fresh : Nat
  synced : Nat
  errors : Nat
  created : List StravaActivity
deriving DecidableEq, Repr

/-- The batch loop of `sync_activities` over the fetched payloads. -/
def syncLoop (cid : Nat) (now : Int) : List StravaData →
    List StravaActivity → Nat → BatchResult
  | [], store, fresh => ⟨store, fresh, 0, 0, []⟩
  | d :: rest, store, fresh =>
    match batchStep cid now d store fresh with
    | StepOutcome.skip => syncLoop cid now rest store fresh
    | StepOutcome.errored =>
      let r := syncLoop cid now rest store fresh
      { r with errors := r.errors + 1 }
    | StepOutcome.created a =>
      let r := syncLoop cid now rest (putActivity store a) (fresh + 1)
      { r with synced := r.synced + 1, created := a :: r.created }

/-- The counts `sync_activities` returns (`ActivitySyncResultDTO`). -/
structure SyncResultCounts where
  synced_count : Nat
  matched_count : Nat
  error_count : Nat
  activities : List StravaActivity
deriving DecidableEq, Repr

/-- The `if connection.needs_refresh()` block of `sync_activities`:
refresh the token upstream (an upstream failure raises and aborts the
sync), install the new tokens and persist the connection. -/
def syncRefreshStep (w : SyncWorld) (connection : StravaConnection) :
    Except (PyError × SyncWorld) (SyncWorld × StravaConnection) :=
  if connection.needs_refresh w.now 3600 then
    match lookupRefresh w.refreshResults connection.refresh_token with
    | none => Except.error (PyError.httpStatusError, w)
    | some td =>
      let c' := connection.update_tokens td.access_token td.refresh_token
        td.expires_at
      Except.ok ({ w with connections := storeConnection w.connections c' },
        c')
  else Except.ok (w, connection)

/-- `sync_activities` after the customer/connection/refresh prelude: run
the batch loop over the fetched payloads, stamp the customer's last-sync
time, then auto-match across all of the customer's unmatched activities. -/
def syncPhase2 (w1 : SyncWorld) (customer : Customer) (cid : Nat) :
    Except (PyError × SyncWorld) (SyncWorld × SyncResultCounts) :=
  let r := syncLoop cid w1.now w1.fetched w1.activities w1.freshId
  let w2 := { w1 with activities := r.store, freshId := r.fresh }
  let w3 := { w2 with customers :=
    updateCustomerList w2.customers (customer.update_last_sync w2.now) }
  match match_activities_to_training_days w3 cid with
  | Except.error e => Except.error e
  | Except.ok (w4, matched) =>
    Except.ok (w4, ⟨r.synced, matched, r.errors, r.created⟩)

/-- `sync_activities` from
src/src/application/use_cases/activity_sync_use_case.py.  The three
fail-fast checks run before anything is fetched or written; `after_date`
defaults to now minus 30 days (the upstream filtering by it is the
collaborator's behaviour, folded into `w.fetched`). -/
def sync_activities (w : SyncWorld) (cid : Nat) (after_date : Option Int) :
    Except (PyError × SyncWorld) (SyncWorld × SyncResultCounts) :=
  match w.customers.find? (fun c => c.id == cid) with
  | none => Except.error (PyError.valueError "Customer not found", w)
  | some customer =>
    if customer.is_strava_connected = false then
      Except.error
        (PyError.valueError "Customer not connected to Strava", w)
    else
      match w.connections.find? (fun c => c.customer_id == cid) with
      | none => Except.error (PyError.valueError "Connection not found", w)
      | some connection =>
        match syncRefreshStep w connection with
        | Except.error e => Except.error e
        | Except.ok (w1, _conn) =>
          let _after := after_date.getD (w1.now - 30 * 86400)
          syncPhase2 w1 customer cid

/-- `sync_single_activity`: fetch one activity's detail; if a record with
that Strava id already exists for the customer, rebuild the entity from the
fresh payload, overwrite its id with the existing record's id, and update
in place; otherwise create it and attempt an immediate single match.  The
returned activity is the entity the Python code converts to a DTO (on the
create path the match mutates that entity in place, hence `res.getD a`). -/
def sync_single_activity (w : SyncWorld) (sid : Int) (cid : Nat) :
    Except (PyError × SyncWorld) (SyncWorld × StravaActivity) :=
  match w.customers.find? (fun c => c.id == cid) with
  | none =>
    Except.error (PyError.valueError "Customer not connected to Strava", w)
  | some customer =>
    if customer.is_strava_connected = false then
      Except.error
        (PyError.valueError "Customer not connected to Strava", w)
    else
      match w.connections.find? (fun c => c.customer_id == cid) with
      | none => Except.error (PyError.valueError "Connection not found", w)
      | some _connection =>
        match getActivityDetail w sid with
        | none => Except.error (PyError.httpStatusError, w)
        | some data =>
          match getByStravaId w.activities sid cid with
          | some existing =>
            match strava_data_to_entity data cid w.now w.freshId with
            | Except.error e => Except.error (e, w)
            | Except.ok a0 =>
              let a := { a0 with id := existing.id }
              let wu := { w with activities := putActivity w.activities a,
                                 freshId := w.freshId + 1 }
              Except.ok (wu, a)
          | none =>
            match strava_data_to_entity data cid w.now w.freshId with
            | Except.error e => Except.error (e, w)
            | Except.ok a =>
              let w1 := { w with activities := putActivity w.activities a,
                                 freshId := w.freshId + 1 }
              match match_single_activity w1 a with
              | Except.error e => Except.error e
              | Except.ok (w2, res) => Except.ok (w2, res.getD a)

/-! ## Concrete instances used to evaluate the model -/

/-- A matched activity: status MATCHED, pointer set. -/
def matchedRunExample : StravaActivity :=
  { id := 1, customer_id := 1, strava_activity_id := 10,
    name := "Morning Run", activity_type := "Run",
    start_date := 1717200000, distance := 8000, moving_time := 2400,
    elapsed_time := 2500, training_day_id := some 5,
    match_status := ActivityMatchStatus.matched }

/-- Positive distance but zero moving time. -/
def zeroTimeRunExample : StravaActivity :=
  { id := 2, customer_id := 1, strava_activity_id := 11, name := "Strides",
    activity_type := "Run", start_date := 1717200000, distance := 1000,
    moving_time := 0, elapsed_time := 60 }

/-- 8000 m in 2400 s. -/
def paceRunExample : StravaActivity :=
  { id := 6, customer_id := 1, strava_activity_id := 15, name := "Long Run",
    activity_type := "Run", start_date := 1717200000, distance := 8000,
    moving_time := 2400, elapsed_time := 2500 }

/-- Zero distance. -/
def zeroDistanceRunExample : StravaActivity :=
  { id := 7, customer_id := 1, strava_activity_id := 16, name := "Treadmill",
    activity_type := "Run", start_date := 1717200000, distance := 0,
    moving_time := 2400, elapsed_time := 2500 }

/-- A stored connection whose token is far from expiry at `now = 0`. -/
def connectionExample : StravaConnection :=
  { customer_id := 1, athlete_id := 777, access_token := "tok-a",
    refresh_token := "tok-r", expires_at := 10000,
    scope := "read,activity:read" }

/-- A connection expiring 1800 seconds after `now = 0`. -/
def connectionSoonExample : StravaConnection :=
  { connectionExample with expires_at := 1800 }

/-- A connection expiring 7200 seconds after `now = 0`. -/
def connectionLaterExample : StravaConnection :=
  { connectionExample with expires_at := 7200 }

/-- A connected customer (athlete id bound). -/
def customerExample : Customer :=
  { id := 1, strava_athlete_id := some 777 }

/-- One training plan of customer 1. -/
def planExample : TrainingPlan := { id := 100, customer_id := 1 }

/-- One training day of that plan, on calendar day 19875. -/
def dayExample : TrainingDay :=
  { id := 50, training_plan_id := 100, date := 19875 }

/-- An unmatched activity starting on calendar day 19875. -/
def sameDateActivityExample : StravaActivity :=
  { id := 3, customer_id := 1, strava_activity_id := 12, name := "Tempo",
    activity_type := "Run", start_date := 19875 * 86400 + 7200,
    distance := 6000, moving_time := 1800, elapsed_time := 1900 }

/-- A world holding one plan with one training day dated like
`sameDateActivityExample`. -/
def matchCrashWorldExample : SyncWorld :=
  { now := 1717300000, customers := [customerExample],
    connections := [connectionExample],
    activities := [sameDateActivityExample], freshId := 10,
    plans := [planExample], planDays := [(100, [dayExample])],
    fetched := [], details := [], refreshResults := [] }

/-- An activity already matched to training day 50 (same calendar day). -/
def firstMatchedActivityExample : StravaActivity :=
  { id := 4, customer_id := 1, strava_activity_id := 13, name := "Intervals",
    activity_type := "Run", start_date := 19875 * 86400 + 3600,
    distance := 7000, moving_time := 2100, elapsed_time := 2200,
    training_day_id := some 50,
    match_status := ActivityMatchStatus.matched }

/-- A second, unmatched activity on the same calendar day 19875. -/
def secondActivityExample : StravaActivity :=
  { id := 5, customer_id := 1, strava_activity_id := 14, name := "Easy Run",
    activity_type := "Run", start_date := 19875 * 86400 + 30000,
    distance := 5000, moving_time := 1500, elapsed_time := 1600 }

/-- A world in which training day 50 is already claimed by
`firstMatchedActivityExample` and a second same-date activity awaits
matching. -/
def claimedDayWorldExample : SyncWorld :=
  { matchCrashWorldExample with
      activities := [firstMatchedActivityExample, secondActivityExample] }

/-- An upstream list payload with all interesting keys present. -/
def fetchedDataExample : StravaData :=
  { id := some 500, name := some "Evening Run", type := some "Run",
    start_date := some 8640000, distance := some 10000,
    moving_time := some 3000, elapsed_time := some 3100,
    kudos_count := some 3 }

/-- A world ready for a full `sync_activities` run: connected customer,
valid token, one new upstream activity, no training plans. -/
def idempotentWorldExample : SyncWorld :=
  { now := 0, customers := [customerExample],
    connections := [connectionExample], activities := [], freshId := 0,
    plans := [], planDays := [], fetched := [fetchedDataExample],
    details := [], refreshResults := [] }

/-- Batch item 1: complete payload. -/
def batchData1Example : StravaData :=
  { id := some 201, name := some "Run A", start_date := some 86400 }

/-- Batch item 2: complete payload. -/
def batchData2Example : StravaData :=
  { id := some 202, name := some "Run B", start_date := some 172800 }

/-- Batch item 3: `start_date` key missing, so mapping raises. -/
def batchData3Example : StravaData :=
  { id := some 203, name := some "Run C" }

/-- Batch item 4: complete payload. -/
def batchData4Example : StravaData :=
  { id := some 204, name := some "Run D", start_date := some 345600 }

/-- Batch item 5: complete payload. -/
def batchData5Example : StravaData :=
  { id := some 205, name := some "Run E", start_date := some 432000 }

/-- A stored activity (Strava id 600) already matched to a training day. -/
def existingMatchedExample : StravaActivity :=
  { id := 42, customer_id := 1, strava_activity_id := 600, name := "Race",
    activity_type := "Run", start_date := 777600, distance := 21097,
    moving_time := 6300, elapsed_time := 6350, training_day_id := some 50,
    match_status := ActivityMatchStatus.matched }

/-- The re-fetched detail payload for Strava id 600. -/
def detailDataExample : StravaData :=
  { id := some 600, name := some "Race (renamed)",
    start_date := some 777600, distance := some 21097,
    moving_time := some 6300, elapsed_time := some 6350,
    splits_metric := some ["split1"] }

/-- A world in which activity 600 exists (matched) and upstream offers a
fresh detail payload for it. -/
def singleSyncWorldExample : SyncWorld :=
  { now := 5, customers := [customerExample],
    connections := [connectionExample],
    activities := [existingMatchedExample], freshId := 99, plans := [],
    planDays := [], fetched := [], details := [(600, detailDataExample)],
    refreshResults := [] }

/-- A world with no customers at all. -/
def noCustomerWorldExample : SyncWorld :=
  { now := 0, customers := [], connections := [], activities := [],
    freshId := 0, plans := [], planDays := [], fetched := [],
    details := [], refreshResults := [] }

/-- A customer with no athlete id bound. -/
def disconnectedCustomerExample : Customer := { id := 2 }

/-- A world whose only customer is not connected to Strava. -/
def notConnectedWorldExample : SyncWorld :=
  { noCustomerWorldExample with customers := [disconnectedCustomerExample] }

/-- A world whose customer believes itself connected while the connection
store holds no credential record. -/
def missingConnectionWorldExample : SyncWorld :=
  { noCustomerWorldExample with customers := [customerExample] }

/-- A fetched payload is settled relative to a store when the batch loop
can only skip it (its dedup key is already stored) or count it as an error
(its id key or its start_date key is missing): it can no longer cause a
create. -/
def itemSettled (cid : Nat) (store : List StravaActivity)
    (d : StravaData) : Prop :=
  ∀ sid, d.id = some sid →
    (keyInStore store sid cid = true ∨ d.start_date = none)

/-- The activity created by the first `sync_activities` run on
`idempotentWorldExample`. -/
def syncedActivityExample : StravaActivity :=
  buildActivity fetchedDataExample 1 0 0 500 8640000

/-- The world after the first `sync_activities` run on
`idempotentWorldExample`. -/
def idempotentWorldAfterExample : SyncWorld :=
  { idempotentWorldExample with
      activities := [syncedActivityExample], freshId := 1,
      customers := [{ customerExample with strava_last_sync := some 0 }] }

/-- The record `sync_single_activity` persists on its update path in
`singleSyncWorldExample`: rebuilt from the fresh payload, id overwritten
with the existing record's id. -/
def updatedSingleExample : StravaActivity :=
  { buildActivity detailDataExample 1 5 99 600 777600 with id := 42 }

/-- The world after that `sync_single_activity` update. -/
def singleSyncWorldAfterExample : SyncWorld :=
  { singleSyncWorldExample with
      activities := [updatedSingleExample], freshId := 100 }

/-! ## Helper lemmas about the matching engine

The inner loop condition reads `day.matched_activity_id`, an attribute the
`TrainingDay` class never defines, so evaluating the condition on a day
whose date equals the activity's date raises; consequently a
`_match_single_activity` call can only return false (leaving everything
unchanged) or raise. -/

theorem findMatchDay_ok_eq_none (adate : Int) (days : List TrainingDay) :
    ∀ r, findMatchDay adate days = Except.ok r → r = none := by
  induction days with
  | nil =>
    intro r h
    simp [findMatchDay] at h
    exact h.symm
  | cons day rest ih =>
    intro r h
    by_cases hd : day.date = adate
    · simp [findMatchDay, hd, TrainingDay.matchedActivityIdAttr] at h
    · simp only [findMatchDay, if_neg hd] at h
      exact ih r h

theorem findMatchDayInPlans_ok_eq_none (w : SyncWorld) (adate : Int)
    (plans : List TrainingPlan) :
    ∀ r, findMatchDayInPlans w adate plans = Except.ok r → r = none := by
  induction plans with
  | nil =>
    intro r h
    simp [findMatchDayInPlans] at h
    exact h.symm
  | cons p rest ih =>
    intro r h
    simp only [findMatchDayInPlans] at h
    cases hfd : findMatchDay adate (getTrainingDays w p.id) with
    | error e => rw [hfd] at h; cases h
    | ok o =>
      have ho := findMatchDay_ok_eq_none adate _ o hfd
      subst ho
      rw [hfd] at h
      exact ih r h

theorem match_single_ok_unchanged (w : SyncWorld) (a : StravaActivity)
    (w' : SyncWorld) (res : Option StravaActivity)
    (h : match_single_activity w a = Except.ok (w', res)) :
    w' = w ∧ res = none := by
  simp only [match_single_activity] at h
  cases hf : findMatchDayInPlans w (dateOf a.start_date)
      (w.plans.filter (fun p => p.customer_id == a.customer_id)) with
  | error e => rw [hf] at h; cases h
  | ok o =>
    have ho := findMatchDayInPlans_ok_eq_none _ _ _ o hf
    subst ho
    rw [hf] at h
    simp only [Except.ok.injEq, Prod.mk.injEq] at h
    exact ⟨h.1.symm, h.2.symm⟩

theorem matchLoop_ok_unchanged (as : List StravaActivity) :
    ∀ w w' n, matchLoop w as = Except.ok (w', n) → w' = w ∧ n = 0 := by
  induction as with
  | nil =>
    intro w w' n h
    simp only [matchLoop, Except.ok.injEq, Prod.mk.injEq] at h
    exact ⟨h.1.symm, h.2.symm⟩
  | cons a rest ih =>
    intro w w' n h
    simp only [matchLoop] at h
    split at h
    · simp at h
    · rename_i w1 res heq1
      split at h
      · simp at h
      · rename_i w2 m heq2
        obtain ⟨hw1, hres⟩ := match_single_ok_unchanged w a w1 res heq1
        obtain ⟨hw2, hm⟩ := ih w1 w2 m heq2
        subst hres
        simp only [Option.isSome_none, Bool.false_eq_true, if_false,
          Except.ok.injEq, Prod.mk.injEq] at h
        refine ⟨?_, ?_⟩
        · rw [← h.1, hw2, hw1]
        · omega

theorem match_sweep_ok_unchanged (w : SyncWorld) (cid : Nat)
    (w' : SyncWorld) (n : Nat)
    (h : match_activities_to_training_days w cid = Except.ok (w', n)) :
    w' = w ∧ n = 0 :=
  matchLoop_ok_unchanged _ w w' n h

/-! ## Helper lemmas about the batch loop -/

theorem buildActivity_customer_id (d : StravaData) (cid : Nat) (now : Int)
    (f : Nat) (sid sd : Int) :
    (buildActivity d cid now f sid sd).customer_id = cid := rfl

theorem buildActivity_strava_activity_id (d : StravaData) (cid : Nat)
    (now : Int) (f : Nat) (sid sd : Int) :
    (buildActivity d cid now f sid sd).strava_activity_id = sid := rfl

theorem buildActivity_start_date (d : StravaData) (cid : Nat) (now : Int)
    (f : Nat) (sid sd : Int) :
    (buildActivity d cid now f sid sd).start_date = sd := rfl

theorem buildActivity_id (d : StravaData) (cid : Nat) (now : Int)
    (f : Nat) (sid sd : Int) :
    (buildActivity d cid now f sid sd).id = f := rfl

theorem buildActivity_match_status (d : StravaData) (cid : Nat) (now : Int)
    (f : Nat) (sid sd : Int) :
    (buildActivity d cid now f sid sd).match_status =
      ActivityMatchStatus.unmatched := rfl

theorem buildActivity_training_day_id (d : StravaData) (cid : Nat)
    (now : Int) (f : Nat) (sid sd : Int) :
    (buildActivity d cid now f sid sd).training_day_id = none := rfl

theorem activityKeyEq_iff (x a : StravaActivity) :
    activityKeyEq x a = true ↔
      x.customer_id = a.customer_id ∧
      x.strava_activity_id = a.strava_activity_id ∧
      x.start_date = a.start_date := by
  simp [activityKeyEq, and_assoc]

theorem keyInStore_iff (store : List StravaActivity) (sid : Int)
    (cid : Nat) :
    keyInStore store sid cid = true ↔
      ∃ a ∈ store, a.customer_id = cid ∧ a.strava_activity_id = sid := by
  simp [keyInStore, getByStravaId, List.find?_isSome]

theorem strava_data_to_entity_ok (d : StravaData) (cid : Nat) (now : Int)
    (f : Nat) (a : StravaActivity)
    (h : strava_data_to_entity d cid now f = Except.ok a) :
    ∃ sid sd, d.id = some sid ∧ d.start_date = some sd ∧
      a = buildActivity d cid now f sid sd := by
  unfold strava_data_to_entity at h
  split at h
  · cases h
  · rename_i sid hid
    split at h
    · cases h
    · rename_i sd hsd
      simp only [Except.ok.injEq] at h
      exact ⟨sid, sd, hid, hsd, h.symm⟩

theorem keyInStore_putActivity (store : List StravaActivity)
    (x : StravaActivity) (sid : Int) (cid : Nat)
    (h : keyInStore store sid cid = true) :
    keyInStore (putActivity store x) sid cid = true := by
  rw [keyInStore_iff] at h ⊢
  obtain ⟨a, ha, hc, hs⟩ := h
  unfold putActivity
  split
  · by_cases hk : activityKeyEq x a = true
    · refine ⟨x, List.mem_map.mpr ⟨a, ha, by rw [if_pos hk]⟩, ?_, ?_⟩
      · rw [activityKeyEq_iff] at hk
        exact hk.1.trans hc
      · rw [activityKeyEq_iff] at hk
        exact hk.2.1.trans hs
    · exact ⟨a, List.mem_map.mpr ⟨a, ha, by rw [if_neg hk]⟩, hc, hs⟩
  · exact ⟨a, List.mem_append_left _ ha, hc, hs⟩

theorem putActivity_of_key_absent (store : List StravaActivity)
    (x : StravaActivity)
    (h : keyInStore store x.strava_activity_id x.customer_id = false) :
    putActivity store x = store ++ [x] := by
  have hno : ¬(store.any (activityKeyEq x) = true) := by
    intro hany
    rw [List.any_eq_true] at hany
    obtain ⟨b, hb, hkb⟩ := hany
    rw [activityKeyEq_iff] at hkb
    have : keyInStore store x.strava_activity_id x.customer_id = true := by
      rw [keyInStore_iff]
      exact ⟨b, hb, hkb.1.symm, hkb.2.1.symm⟩
    rw [h] at this
    cases this
  unfold putActivity
  rw [if_neg hno]

theorem keyInStore_append_false (store : List StravaActivity)
    (x : StravaActivity) (sid : Int) (cid : Nat)
    (h : keyInStore store sid cid = false)
    (hx : x.strava_activity_id ≠ sid ∨ x.customer_id ≠ cid) :
    keyInStore (store ++ [x]) sid cid = false := by
  rw [Bool.eq_false_iff]
  intro hk
  rw [keyInStore_iff] at hk
  obtain ⟨a, ha, hc, hs⟩ := hk
  rcases List.mem_append.mp ha with hmem | hmem
  · have : keyInStore store sid cid = true := by
      rw [keyInStore_iff]
      exact ⟨a, hmem, hc, hs⟩
    rw [h] at this
    cases this
  · have hax : a = x := List.mem_singleton.mp hmem
    subst hax
    rcases hx with hx | hx
    · exact hx hs
    · exact hx hc

theorem batchStep_skip_inv (cid : Nat) (now : Int) (d : StravaData)
    (store : List StravaActivity) (fresh : Nat)
    (h : batchStep cid now d store fresh = StepOutcome.skip) :
    ∃ sid, d.id = some sid ∧ keyInStore store sid cid = true := by
  unfold batchStep at h
  split at h
  · cases h
  · rename_i sid hid
    split at h
    · rename_i hk
      exact ⟨sid, hid, hk⟩
    · split at h <;> cases h

theorem batchStep_errored_inv (cid : Nat) (now : Int) (d : StravaData)
    (store : List StravaActivity) (fresh : Nat)
    (h : batchStep cid now d store fresh = StepOutcome.errored) :
    d.id = none ∨ d.start_date = none := by
  unfold batchStep at h
  split at h
  · rename_i hid
    exact Or.inl hid
  · rename_i sid hid
    split at h
    · cases h
    · split at h
      · rename_i e hent
        cases hsd : d.start_date with
        | none => exact Or.inr rfl
        | some sd =>
          have hok : strava_data_to_entity d cid now fresh =
              Except.ok (buildActivity d cid now fresh sid sd) := by
            simp [strava_data_to_entity, hid, hsd]
          rw [hok] at hent
          cases hent
      · cases h

theorem batchStep_created_inv (cid : Nat) (now : Int) (d : StravaData)
    (store : List StravaActivity) (fresh : Nat) (a : StravaActivity)
    (h : batchStep cid now d store fresh = StepOutcome.created a) :
    ∃ sid sd, d.id = some sid ∧ d.start_date = some sd ∧
      keyInStore store sid cid = false ∧
      a = buildActivity d cid now fresh sid sd := by
  unfold batchStep at h
  split at h
  · cases h
  · rename_i sid hid
    split at h
    · cases h
    · rename_i hk
      split at h
      · cases h
      · rename_i a' hent
        obtain ⟨sid', sd, hid', hsd, hbuild⟩ :=
          strava_data_to_entity_ok d cid now fresh a' hent
        rw [hid] at hid'
        injection hid' with hss
        subst hss
        simp only [StepOutcome.created.injEq] at h
        refine ⟨sid, sd, hid, hsd, ?_, by rw [← h, hbuild]⟩
        exact Bool.not_eq_true _ ▸ (by simpa using hk)

theorem syncLoop_store_mono (cid : Nat) (now : Int) (ds : List StravaData) :
    ∀ store fresh sid cid', keyInStore store sid cid' = true →
      keyInStore (syncLoop cid now ds store fresh).store sid cid' = true := by
  induction ds with
  | nil =>
    intro store fresh sid cid' h
    simpa [syncLoop] using h
  | cons d rest ih =>
    intro store fresh sid cid' h
    simp only [syncLoop]
    split
    · exact ih store fresh sid cid' h
    · simpa using ih store fresh sid cid' h
    · rename_i a heq
      simpa using ih (putActivity store a) (fresh + 1) sid cid'
        (keyInStore_putActivity store a sid cid' h)

theorem batchStep_settled (cid : Nat) (now : Int) (d : StravaData)
    (store : List StravaActivity) (fresh : Nat)
    (h : itemSettled cid store d) :
    batchStep cid now d store fresh = StepOutcome.skip ∨
    batchStep cid now d store fresh = StepOutcome.errored := by
  cases hid : d.id with
  | none =>
    right
    simp [batchStep, hid]
  | some sid =>
    rcases h sid hid with hk | hsd
    · left
      simp [batchStep, hid, hk]
    · by_cases hk : keyInStore store sid cid = true
      · left
        simp [batchStep, hid, hk]
      · right
        simp [batchStep, hid, hk, strava_data_to_entity, hsd]

theorem syncLoop_settled (cid : Nat) (now : Int) (ds : List StravaData) :
    ∀ store fresh, (∀ d ∈ ds, itemSettled cid store d) →
      (syncLoop cid now ds store fresh).store = store ∧
      (syncLoop cid now ds store fresh).synced = 0 := by
  induction ds with
  | nil =>
    intro store fresh _
    simp [syncLoop]
  | cons d rest ih =>
    intro store fresh hall
    have hd := hall d (List.mem_cons_self d rest)
    have hrest : ∀ x ∈ rest, itemSettled cid store x :=
      fun x hx => hall x (List.mem_cons_of_mem d hx)
    rcases batchStep_settled cid now d store fresh hd with hs | hs <;>
      simp only [syncLoop, hs] <;>
      simpa using ih store fresh hrest

theorem syncLoop_final_settled (cid : Nat) (now : Int)
    (ds : List StravaData) :
    ∀ store fresh d, d ∈ ds →
      itemSettled cid (syncLoop cid now ds store fresh).store d := by
  induction ds with
  | nil =>
    intro store fresh d hd
    cases hd
  | cons d0 rest ih =>
    intro store fresh d hd
    simp only [syncLoop]
    split
    · rename_i hstep
      rcases List.mem_cons.mp hd with rfl | hmem
      · intro sid hid
        obtain ⟨sid0, hid0, hk0⟩ :=
          batchStep_skip_inv cid now d store fresh hstep
        rw [hid] at hid0
        injection hid0 with hss
        subst hss
        exact Or.inl
          (syncLoop_store_mono cid now rest store fresh sid cid hk0)
      · exact ih store fresh d hmem
    · rename_i hstep
      rcases List.mem_cons.mp hd with rfl | hmem
      · intro sid hid
        rcases batchStep_errored_inv cid now d store fresh hstep with
          hnone | hsd
        · rw [hid] at hnone
          cases hnone
        · exact Or.inr hsd
      · have := ih store fresh d hmem
        simpa using this
    · rename_i a hstep
      rcases List.mem_cons.mp hd with rfl | hmem
      · intro sid hid
        obtain ⟨sid0, sd, hid0, hsd, hk0, hbuild⟩ :=
          batchStep_created_inv cid now d store fresh a hstep
        rw [hid] at hid0
        injection hid0 with hss
        subst hss
        have hsid : a.strava_activity_id = sid := by
          rw [hbuild, buildActivity_strava_activity_id]
        have hcid : a.customer_id = cid := by
          rw [hbuild, buildActivity_customer_id]
        have hkey : keyInStore (putActivity store a) sid cid = true := by
          rw [keyInStore_iff]
          refine ⟨a, ?_, hcid, hsid⟩
          rw [putActivity_of_key_absent store a (by rw [hsid, hcid]; exact hk0)]
          exact List.mem_append_right _ (List.mem_singleton.mpr rfl)
        have := syncLoop_store_mono cid now rest (putActivity store a)
          (fresh + 1) sid cid hkey
        exact Or.inl (by simpa using this)
      · have := ih (putActivity store a) (fresh + 1) d hmem
        simpa using this

theorem syncLoop_cons_created (cid : Nat) (now : Int) (d : StravaData)
    (rest : List StravaData) (store : List StravaActivity) (fresh : Nat)
    (sid sd : Int) (hid : d.id = some sid) (hsd : d.start_date = some sd)
    (hk : keyInStore store sid cid = false) :
    syncLoop cid now (d :: rest) store fresh =
      { syncLoop cid now rest
          (store ++ [buildActivity d cid now fresh sid sd]) (fresh + 1) with
        synced := (syncLoop cid now rest
          (store ++ [buildActivity d cid now fresh sid sd])
          (fresh + 1)).synced + 1,
        created := buildActivity d cid now fresh sid sd ::
          (syncLoop cid now rest
            (store ++ [buildActivity d cid now fresh sid sd])
            (fresh + 1)).created } := by
  have hstep : batchStep cid now d store fresh =
      StepOutcome.created (buildActivity d cid now fresh sid sd) := by
    simp [batchStep, hid, hk, strava_data_to_entity, hsd]
  have happ : putActivity store (buildActivity d cid now fresh sid sd) =
      store ++ [buildActivity d cid now fresh sid sd] :=
    putActivity_of_key_absent store _ (by
      rw [buildActivity_strava_activity_id, buildActivity_customer_id]
      exact hk)
  simp only [syncLoop, hstep, happ]

theorem syncLoop_cons_errored (cid : Nat) (now : Int) (d : StravaData)
    (rest : List StravaData) (store : List StravaActivity) (fresh : Nat)
    (sid : Int) (hid : d.id = some sid) (hsd : d.start_date = none)
    (hk : keyInStore store sid cid = false) :
    syncLoop cid now (d :: rest) store fresh =
      { syncLoop cid now rest store fresh with
        errors := (syncLoop cid now rest store fresh).errors + 1 } := by
  have hstep : batchStep cid now d store fresh = StepOutcome.errored := by
    simp [batchStep, hid, hk, strava_data_to_entity, hsd]
  simp only [syncLoop, hstep]

/-! ## Inversion lemmas for a completed sync run -/

theorem syncRefreshStep_ok_inv (w : SyncWorld) (c : StravaConnection)
    (w1 : SyncWorld) (c' : StravaConnection)
    (h : syncRefreshStep w c = Except.ok (w1, c')) :
    w1.activities = w.activities ∧ w1.fetched = w.fetched ∧
    w1.now = w.now ∧ w1.freshId = w.freshId := by
  simp only [syncRefreshStep] at h
  split at h
  · split at h
    · simp at h
    · rename_i td heq
      simp only [Except.ok.injEq, Prod.mk.injEq] at h
      obtain ⟨hw, _⟩ := h
      rw [← hw]
      exact ⟨rfl, rfl, rfl, rfl⟩
  · simp only [Except.ok.injEq, Prod.mk.injEq] at h
    obtain ⟨hw, _⟩ := h
    rw [← hw]
    exact ⟨rfl, rfl, rfl, rfl⟩

theorem syncPhase2_ok_inv (w1 : SyncWorld) (cust : Customer) (cid : Nat)
    (wf : SyncWorld) (res : SyncResultCounts)
    (h : syncPhase2 w1 cust cid = Except.ok (wf, res)) :
    wf.activities =
      (syncLoop cid w1.now w1.fetched w1.activities w1.freshId).store ∧
    wf.fetched = w1.fetched ∧ wf.now = w1.now ∧
    res.synced_count =
      (syncLoop cid w1.now w1.fetched w1.activities w1.freshId).synced := by
  simp only [syncPhase2] at h
  split at h
  · simp at h
  · rename_i w4 matched heq
    obtain ⟨hw4, _⟩ := match_sweep_ok_unchanged _ _ _ _ heq
    simp only [Except.ok.injEq, Prod.mk.injEq] at h
    obtain ⟨hwf, hres⟩ := h
    subst hwf
    refine ⟨?_, ?_, ?_, ?_⟩
    · rw [hw4]
    · rw [hw4]
    · rw [hw4]
    · rw [← hres]

theorem sync_activities_ok_inv (w : SyncWorld) (cid : Nat)
    (after : Option Int) (wf : SyncWorld) (res : SyncResultCounts)
    (h : sync_activities w cid after = Except.ok (wf, res)) :
    wf.activities =
      (syncLoop cid w.now w.fetched w.activities w.freshId).store ∧
    wf.fetched = w.fetched ∧ wf.now = w.now ∧
    res.synced_count =
      (syncLoop cid w.now w.fetched w.activities w.freshId).synced := by
  simp only [sync_activities] at h
  split at h
  · simp at h
  · rename_i cust hcust
    split at h
    · simp at h
    · split at h
      · simp at h
      · rename_i conn hconn
        split at h
        · simp at h
        · rename_i w1 c' hrefresh
          obtain ⟨ha, hf, hn, hfr⟩ :=
            syncRefreshStep_ok_inv w conn w1 c' hrefresh
          obtain ⟨g1, g2, g3, g4⟩ := syncPhase2_ok_inv w1 cust cid wf res h
          simp only [ha, hf, hn, hfr] at g1 g2 g3 g4
          exact ⟨g1, g2, g3, g4⟩

/-! ## Claim theorems -/

/-- C1 (counterexample): the claim fails on the code.  The activity
`matchedRunExample` satisfies the match invariant (MATCHED with a non-null
pointer), yet applying `ignore` to it yields IGNORED with the pointer still
set — `ignore` does not clear `training_day_id` — so the resulting state
violates the invariant. -/
theorem ignore_matched_violates_invariant :
    matchInvariant matchedRunExample ∧
    ¬ matchInvariant matchedRunExample.ignore := by
  constructor
  · simp [matchInvariant, matchedRunExample]
  · simp [matchInvariant, StravaActivity.ignore, matchedRunExample]

/-- C1 (amended): for every activity, `match_to_training_day` and `unmatch`
yield states satisfying the match invariant (from any starting state), and
`ignore` yields a state satisfying it exactly when the starting match
pointer is null; applying `ignore` to a MATCHED activity breaks the
invariant. -/
theorem match_invariant_transitions (a : StravaActivity) (tid : Nat) :
    matchInvariant (a.match_to_training_day tid) ∧
    matchInvariant a.unmatch ∧
    (a.training_day_id = none → matchInvariant a.ignore) := by
  refine ⟨?_, ?_, fun h => ?_⟩
  · simp [matchInvariant, StravaActivity.match_to_training_day]
  · simp [matchInvariant, StravaActivity.unmatch]
  · simp [matchInvariant, StravaActivity.ignore, h]

/-- C1 (witness): the amended theorem evaluated on a concrete unmatched
activity. -/
theorem match_invariant_transitions_witness :
    matchInvariant (zeroDistanceRunExample.match_to_training_day 9) ∧
    matchInvariant zeroDistanceRunExample.unmatch ∧
    matchInvariant zeroDistanceRunExample.ignore := by
  have h := match_invariant_transitions zeroDistanceRunExample 9
  exact ⟨h.1, h.2.1, h.2.2 (by decide)⟩

/-- C2 (code bug): evaluating `_match_single_activity` at the failing
input.  The world holds one plan with one training day whose calendar date
equals the activity's date and which no activity has claimed; the claim
says the activity is marked MATCHED to that day and true is returned, but
the code raises `AttributeError` at the loop condition
`not day.matched_activity_id`, because the `TrainingDay` class defines no
attribute of that name. -/
theorem match_single_crashes_on_matching_date :
    match_single_activity matchCrashWorldExample sameDateActivityExample =
      Except.error (PyError.attributeError "matched_activity_id",
        matchCrashWorldExample) := by rfl

/-- C3 (code bug): evaluating `_match_single_activity` at the failing
input.  Training day 50 is already claimed by a matched activity; the claim
says a second same-date activity either matches another free day or stays
unmatched, but the call for the second activity raises `AttributeError` at
the same-date day — the day-side pointer the guard is meant to read does
not exist (and no code ever assigns one when a day is claimed). -/
theorem match_single_crashes_after_day_claimed :
    match_single_activity claimedDayWorldExample secondActivityExample =
      Except.error (PyError.attributeError "matched_activity_id",
        claimedDayWorldExample) := by rfl

/-- C4: `sync_activities` is idempotent with respect to upstream data —
every fetched payload whose (external id, customer id) key is already
stored is skipped without modifying the stored record, so whenever a first
run completes and a second run over the same upstream list completes, the
second run returns synced_count 0 and leaves the persisted activity set
unchanged. -/
theorem sync_activities_idempotent (w : SyncWorld) (cid : Nat)
    (after : Option Int) (w1 w2 : SyncWorld) (r1 r2 : SyncResultCounts)
    (hrun1 : sync_activities w cid after = Except.ok (w1, r1))
    (hrun2 : sync_activities w1 cid after = Except.ok (w2, r2)) :
    r2.synced_count = 0 ∧ w2.activities = w1.activities := by
  obtain ⟨ha1, hf1, hn1, _⟩ :=
    sync_activities_ok_inv w cid after w1 r1 hrun1
  obtain ⟨ha2, hf2, hn2, hs2⟩ :=
    sync_activities_ok_inv w1 cid after w2 r2 hrun2
  have hsettled : ∀ d ∈ w1.fetched, itemSettled cid w1.activities d := by
    rw [hf1, ha1]
    intro d hd
    exact syncLoop_final_settled cid w.now w.fetched w.activities
      w.freshId d hd
  obtain ⟨hst, hsy⟩ := syncLoop_settled cid w1.now w1.fetched
    w1.activities w1.freshId hsettled
  constructor
  · rw [hs2, hsy]
  · rw [ha2, hst]

/-- C4 (witness): two consecutive runs on a concrete world with one
upstream activity — the second returns synced_count 0 and the same
world. -/
theorem sync_activities_idempotent_witness :
    (⟨0, 0, 0, ([] : List StravaActivity)⟩ : SyncResultCounts).synced_count
        = 0 ∧
    idempotentWorldAfterExample.activities =
      idempotentWorldAfterExample.activities :=
  sync_activities_idempotent idempotentWorldExample 1 none
    idempotentWorldAfterExample idempotentWorldAfterExample
    ⟨1, 0, 0, [syncedActivityExample]⟩ ⟨0, 0, 0, []⟩
    (by rfl) (by rfl)

/-- C6: the update path of `sync_single_activity`.  When a record with the
fetched external id already exists for the customer, the persisted updated
record keeps the existing record's internal id, while its match_status is
UNMATCHED and its training_day_id is null regardless of the prior record's
match state, and the only store change is that single put — no re-match is
attempted on this path. -/
theorem sync_single_update_discards_match (w : SyncWorld) (sid : Int)
    (cid : Nat) (e : StravaActivity) (w' : SyncWorld) (a : StravaActivity)
    (hex : getByStravaId w.activities sid cid = some e)
    (h : sync_single_activity w sid cid = Except.ok (w', a)) :
    a.id = e.id ∧ a.match_status = ActivityMatchStatus.unmatched ∧
    a.training_day_id = none ∧
    w'.activities = putActivity w.activities a := by
  simp only [sync_single_activity] at h
  split at h
  · simp at h
  · split at h
    · simp at h
    · split at h
      · simp at h
      · split at h
        · simp at h
        · rename_i data hdata
          split at h
          · rename_i ex hexeq
            split at h
            · simp at h
            · rename_i a0 hent
              simp only [Except.ok.injEq, Prod.mk.injEq] at h
              obtain ⟨hw, ha⟩ := h
              obtain ⟨sid', sd, hid, hsd, hbuild⟩ :=
                strava_data_to_entity_ok _ _ _ _ _ hent
              have hexe : ex = e := by
                rw [hexeq] at hex
                injection hex
              subst hexe
              refine ⟨?_, ?_, ?_, ?_⟩
              · rw [← ha]
              · rw [← ha]
                show a0.match_status = ActivityMatchStatus.unmatched
                rw [hbuild, buildActivity_match_status]
              · rw [← ha]
                show a0.training_day_id = none
                rw [hbuild, buildActivity_training_day_id]
              · rw [← hw, ha]
          · rename_i hexeq
            rw [hexeq] at hex
            cases hex

/-- C6 (witness): the theorem evaluated on a concrete world whose stored
activity 600 is MATCHED; the re-fetch keeps id 42 but resets the match. -/
theorem sync_single_update_discards_match_witness :
    updatedSingleExample.id = existingMatchedExample.id ∧
    updatedSingleExample.match_status = ActivityMatchStatus.unmatched ∧
    updatedSingleExample.training_day_id = none ∧
    singleSyncWorldAfterExample.activities =
      putActivity singleSyncWorldExample.activities updatedSingleExample :=
  sync_single_update_discards_match singleSyncWorldExample 600 1
    existingMatchedExample singleSyncWorldAfterExample updatedSingleExample
    (by rfl) (by rfl)

/-- C7: `sync_activities` fails fast with three mutually distinct errors —
customer absent, customer not connected (no athlete id), and connection
record missing — and in each case the error carries the world unchanged:
nothing has been fetched or persisted. -/
theorem sync_activities_failfast (w : SyncWorld) (cid : Nat)
    (after : Option Int) :
    (w.customers.find? (fun c => c.id == cid) = none →
      sync_activities w cid after =
        Except.error (PyError.valueError "Customer not found", w)) ∧
    (∀ c, w.customers.find? (fun x => x.id == cid) = some c →
      c.strava_athlete_id = none →
      sync_activities w cid after =
        Except.error
          (PyError.valueError "Customer not connected to Strava", w)) ∧
    (∀ c, w.customers.find? (fun x => x.id == cid) = some c →
      c.strava_athlete_id ≠ none →
      w.connections.find? (fun x => x.customer_id == cid) = none →
      sync_activities w cid after =
        Except.error (PyError.valueError "Connection not found", w)) ∧
    (PyError.valueError "Customer not found" ≠
      PyError.valueError "Customer not connected to Strava") ∧
    (PyError.valueError "Customer not found" ≠
      PyError.valueError "Connection not found") ∧
    (PyError.valueError "Customer not connected to Strava" ≠
      PyError.valueError "Connection not found") := by
  refine ⟨fun h => ?_, fun c hc hna => ?_, fun c hc hna hcon => ?_,
    by decide, by decide, by decide⟩
  · simp [sync_activities, h]
  · simp [sync_activities, hc, Customer.is_strava_connected, hna]
  · have hsome : c.strava_athlete_id.isSome = true :=
      Option.isSome_iff_ne_none.mpr hna
    simp [sync_activities, hc, Customer.is_strava_connected, hsome, hcon]

/-- C7 (witness): the three fail-fast errors evaluated on three concrete
worlds. -/
theorem sync_activities_failfast_witness :
    sync_activities noCustomerWorldExample 1 none =
      Except.error (PyError.valueError "Customer not found",
        noCustomerWorldExample) ∧
    sync_activities notConnectedWorldExample 2 none =
      Except.error (PyError.valueError "Customer not connected to Strava",
        notConnectedWorldExample) ∧
    sync_activities missingConnectionWorldExample 1 none =
      Except.error (PyError.valueError "Connection not found",
        missingConnectionWorldExample) := by
  refine ⟨?_, ?_, ?_⟩
  · exact (sync_activities_failfast noCustomerWorldExample 1 none).1
      (by rfl)
  · exact (sync_activities_failfast notConnectedWorldExample 2 none).2.1
      disconnectedCustomerExample (by rfl) (by rfl)
  · exact
      (sync_activities_failfast missingConnectionWorldExample 1 none).2.2.1
        customerExample (by rfl) (by decide) (by rfl)

/-- C5: partial-failure isolation in the batch loop of `sync_activities`.
For any batch of five new fetched payloads (keys not yet stored, pairwise
distinct ids) in which exactly item 3 fails mapping (its `start_date` key
is missing), the loop yields synced_count 4 and error_count 1, and the
entities of items 1, 2, 4, 5 are persisted — the failing item only
increments the error counter and processing continues. -/
theorem sync_batch_error_isolation
    (cid : Nat) (now : Int) (st : List StravaActivity) (f : Nat)
    (d1 d2 d3 d4 d5 : StravaData) (s1 s2 s3 s4 s5 t1 t2 t4 t5 : Int)
    (h1 : d1.id = some s1) (hd1 : d1.start_date = some t1)
    (h2 : d2.id = some s2) (hd2 : d2.start_date = some t2)
    (h3 : d3.id = some s3) (hd3 : d3.start_date = none)
    (h4 : d4.id = some s4) (hd4 : d4.start_date = some t4)
    (h5 : d5.id = some s5) (hd5 : d5.start_date = some t5)
    (hk1 : keyInStore st s1 cid = false)
    (hk2 : keyInStore st s2 cid = false)
    (hk3 : keyInStore st s3 cid = false)
    (hk4 : keyInStore st s4 cid = false)
    (hk5 : keyInStore st s5 cid = false)
    (h21 : s2 ≠ s1) (h31 : s3 ≠ s1) (h32 : s3 ≠ s2)
    (h41 : s4 ≠ s1) (h42 : s4 ≠ s2) (h51 : s5 ≠ s1) (h52 : s5 ≠ s2)
    (h54 : s5 ≠ s4) :
    syncLoop cid now [d1, d2, d3, d4, d5] st f =
      ⟨st ++ [buildActivity d1 cid now f s1 t1,
              buildActivity d2 cid now (f + 1) s2 t2,
              buildActivity d4 cid now (f + 2) s4 t4,
              buildActivity d5 cid now (f + 3) s5 t5],
       f + 4, 4, 1,
       [buildActivity d1 cid now f s1 t1,
        buildActivity d2 cid now (f + 1) s2 t2,
        buildActivity d4 cid now (f + 2) s4 t4,
        buildActivity d5 cid now (f + 3) s5 t5]⟩ := by
  have hk2a : keyInStore (st ++ [buildActivity d1 cid now f s1 t1])
      s2 cid = false :=
    keyInStore_append_false st _ s2 cid hk2 (Or.inl (by
      rw [buildActivity_strava_activity_id]; exact Ne.symm h21))
  have hk3a : keyInStore (st ++ [buildActivity d1 cid now f s1 t1])
      s3 cid = false :=
    keyInStore_append_false st _ s3 cid hk3 (Or.inl (by
      rw [buildActivity_strava_activity_id]; exact Ne.symm h31))
  have hk3b : keyInStore (st ++ [buildActivity d1 cid now f s1 t1] ++
      [buildActivity d2 cid now (f + 1) s2 t2]) s3 cid = false :=
    keyInStore_append_false _ _ s3 cid hk3a (Or.inl (by
      rw [buildActivity_strava_activity_id]; exact Ne.symm h32))
  have hk4a : keyInStore (st ++ [buildActivity d1 cid now f s1 t1])
      s4 cid = false :=
    keyInStore_append_false st _ s4 cid hk4 (Or.inl (by
      rw [buildActivity_strava_activity_id]; exact Ne.symm h41))
  have hk4b : keyInStore (st ++ [buildActivity d1 cid now f s1 t1] ++
      [buildActivity d2 cid now (f + 1) s2 t2]) s4 cid = false :=
    keyInStore_append_false _ _ s4 cid hk4a (Or.inl (by
      rw [buildActivity_strava_activity_id]; exact Ne.symm h42))
  have hk5a : keyInStore (st ++ [buildActivity d1 cid now f s1 t1])
      s5 cid = false :=
    keyInStore_append_false st _ s5 cid hk5 (Or.inl (by
      rw [buildActivity_strava_activity_id]; exact Ne.symm h51))
  have hk5b : keyInStore (st ++ [buildActivity d1 cid now f s1 t1] ++
      [buildActivity d2 cid now (f + 1) s2 t2]) s5 cid = false :=
    keyInStore_append_false _ _ s5 cid hk5a (Or.inl (by
      rw [buildActivity_strava_activity_id]; exact Ne.symm h52))
  have hk5c : keyInStore (st ++ [buildActivity d1 cid now f s1 t1] ++
      [buildActivity d2 cid now (f + 1) s2 t2] ++
      [buildActivity d4 cid now (f + 1 + 1) s4 t4]) s5 cid = false :=
    keyInStore_append_false _ _ s5 cid hk5b (Or.inl (by
      rw [buildActivity_strava_activity_id]; exact Ne.symm h54))
  rw [syncLoop_cons_created cid now d1 [d2, d3, d4, d5] st f s1 t1
    h1 hd1 hk1]
  rw [syncLoop_cons_created cid now d2 [d3, d4, d5]
    (st ++ [buildActivity d1 cid now f s1 t1]) (f + 1) s2 t2 h2 hd2 hk2a]
  rw [syncLoop_cons_errored cid now d3 [d4, d5]
    (st ++ [buildActivity d1 cid now f s1 t1] ++
      [buildActivity d2 cid now (f + 1) s2 t2]) (f + 1 + 1) s3 h3 hd3 hk3b]
  rw [syncLoop_cons_created cid now d4 [d5]
    (st ++ [buildActivity d1 cid now f s1 t1] ++
      [buildActivity d2 cid now (f + 1) s2 t2]) (f + 1 + 1) s4 t4
    h4 hd4 hk4b]
  rw [syncLoop_cons_created cid now d5 []
    (st ++ [buildActivity d1 cid now f s1 t1] ++
      [buildActivity d2 cid now (f + 1) s2 t2] ++
      [buildActivity d4 cid now (f + 1 + 1) s4 t4]) (f + 1 + 1 + 1) s5 t5
    h5 hd5 hk5c]
  have hf2 : f + 1 + 1 = f + 2 := by omega
  have hf3 : f + 1 + 1 + 1 = f + 3 := by omega
  have hf4 : f + 1 + 1 + 1 + 1 = f + 4 := by omega
  rw [hf4, hf3, hf2]
  simp [syncLoop, List.append_assoc]

/-- C5 (witness): the theorem evaluated on a concrete 5-item batch whose
third item lacks its start_date key. -/
theorem sync_batch_error_isolation_witness :
    syncLoop 1 0 [batchData1Example, batchData2Example, batchData3Example,
        batchData4Example, batchData5Example] [] 0 =
      ⟨[buildActivity batchData1Example 1 0 0 201 86400,
        buildActivity batchData2Example 1 0 1 202 172800,
        buildActivity batchData4Example 1 0 2 204 345600,
        buildActivity batchData5Example 1 0 3 205 432000],
       4, 4, 1,
       [buildActivity batchData1Example 1 0 0 201 86400,
        buildActivity batchData2Example 1 0 1 202 172800,
        buildActivity batchData4Example 1 0 2 204 345600,
        buildActivity batchData5Example 1 0 3 205 432000]⟩ := by
  have h := sync_batch_error_isolation 1 0 [] 0
    batchData1Example batchData2Example batchData3Example
    batchData4Example batchData5Example 201 202 203 204 205
    86400 172800 345600 432000
    rfl rfl rfl rfl rfl rfl rfl rfl rfl rfl
    rfl rfl rfl rfl rfl
    (by decide) (by decide) (by decide) (by decide) (by decide)
    (by decide) (by decide) (by decide)
  simpa using h

/-- C8: the verification responder echoes the challenge with 200 exactly
when the mode is "subscribe" and the verify token equals the configured
secret; a wrong mode yields the 400 response and a correct mode with a
mismatched token yields the 403 response. -/
theorem webhook_verification_contract
    (secret mode token challenge : String) :
    (verify_strava_webhook secret mode token challenge =
        WebhookVerifyResponse.challengeEcho challenge ↔
      (mode = "subscribe" ∧ token = secret)) ∧
    (mode ≠ "subscribe" →
      verify_strava_webhook secret mode token challenge =
        WebhookVerifyResponse.badRequest "Invalid hub.mode" ∧
      (verify_strava_webhook secret mode token challenge).statusCode
        = 400) ∧
    (mode = "subscribe" → token ≠ secret →
      verify_strava_webhook secret mode token challenge =
        WebhookVerifyResponse.forbidden "Invalid verify_token" ∧
      (verify_strava_webhook secret mode token challenge).statusCode
        = 403) ∧
    (mode = "subscribe" ∧ token = secret →
      (verify_strava_webhook secret mode token challenge).statusCode
        = 200) := by
  by_cases hm : mode = "subscribe" <;> by_cases ht : token = secret <;>
    simp [verify_strava_webhook, hm, ht, WebhookVerifyResponse.statusCode]

/-- C8 (witness): the contract evaluated at the spec's own test vectors. -/
theorem webhook_verification_contract_witness :
    verify_strava_webhook "s3cret" "subscribe" "s3cret" "abc" =
      WebhookVerifyResponse.challengeEcho "abc" ∧
    verify_strava_webhook "s3cret" "unsubscribe" "s3cret" "abc" =
      WebhookVerifyResponse.badRequest "Invalid hub.mode" ∧
    verify_strava_webhook "s3cret" "subscribe" "wrong" "abc" =
      WebhookVerifyResponse.forbidden "Invalid verify_token" := by
  refine ⟨?_, ?_, ?_⟩
  · exact
      (webhook_verification_contract "s3cret" "subscribe" "s3cret"
        "abc").1.mpr ⟨rfl, rfl⟩
  · exact
      ((webhook_verification_contract "s3cret" "unsubscribe" "s3cret"
        "abc").2.1 (by decide)).1
  · exact
      ((webhook_verification_contract "s3cret" "subscribe" "wrong"
        "abc").2.2.1 rfl (by decide)).1

/-- C9 (counterexample): the claim fails on the code.  For an activity with
positive distance (1000 m) but zero moving time, the code returns `none`
rather than the claimed moving-time/distance quotient (which would be
`some 0`). -/
theorem pace_formula_counterexample :
    0 < zeroTimeRunExample.distance ∧
    zeroTimeRunExample.calculate_pace_min_per_km ≠
      some (((zeroTimeRunExample.moving_time : ℚ) / 60) /
        (zeroTimeRunExample.distance / 1000)) := by decide

/-- C9 (amended): the derived pace equals moving time in minutes divided by
distance in kilometers whenever both distance and moving time are positive,
and is `none` (never a division by zero) whenever distance ≤ 0 or moving
time ≤ 0. -/
theorem pace_derivation (a : StravaActivity) :
    (0 < a.distance ∧ 0 < a.moving_time →
      a.calculate_pace_min_per_km =
        some (((a.moving_time : ℚ) / 60) / (a.distance / 1000))) ∧
    ((a.distance ≤ 0 ∨ a.moving_time ≤ 0) →
      a.calculate_pace_min_per_km = none) := by
  constructor
  · intro h
    simp only [StravaActivity.calculate_pace_min_per_km]
    rw [if_pos h]
  · intro h
    have hc : ¬(0 < a.distance ∧ 0 < a.moving_time) := by
      rcases h with h | h
      · exact fun hx => absurd hx.1 (not_lt.mpr h)
      · exact fun hx => absurd hx.2 (not_lt.mpr h)
    simp only [StravaActivity.calculate_pace_min_per_km]
    rw [if_neg hc]

/-- C9 (witness): 8000 m in 2400 s gives pace 5 min/km; zero distance
gives `none`. -/
theorem pace_derivation_witness :
    paceRunExample.calculate_pace_min_per_km = some 5 ∧
    zeroDistanceRunExample.calculate_pace_min_per_km = none := by
  constructor
  · have h := (pace_derivation paceRunExample).1 (by decide)
    rw [h]
    norm_num [paceRunExample]
  · exact (pace_derivation zeroDistanceRunExample).2 (by decide)

/-- C10: with the default 3600-second buffer, `needs_refresh` returns true
exactly when now + buffer ≥ expiry; a connection expiring in 1800 seconds
reports true, one expiring in 7200 seconds reports false. -/
theorem needs_refresh_contract (c : StravaConnection) (now : Int) :
    (c.needs_refresh now 3600 = true ↔ now + 3600 ≥ c.expires_at) ∧
    (c.expires_at = now + 1800 → c.needs_refresh now 3600 = true) ∧
    (c.expires_at = now + 7200 → c.needs_refresh now 3600 = false) := by
  refine ⟨?_, fun h => ?_, fun h => ?_⟩
  · simp [StravaConnection.needs_refresh, ge_iff_le]
  · simp [StravaConnection.needs_refresh, h]
  · simp [StravaConnection.needs_refresh, h]

/-- C10 (witness): the contract evaluated at expiry now+1800 and
now+7200. -/
theorem needs_refresh_contract_witness :
    connectionSoonExample.needs_refresh 0 3600 = true ∧
    connectionLaterExample.needs_refresh 0 3600 = false := by
  constructor
  · exact (needs_refresh_contract connectionSoonExample 0).2.1 (by decide)
  · exact (needs_refresh_contract connectionLaterExample 0).2.2 (by decide)

end RunningClub
